import Mathlib

/-!
# Verification of the NOIRLab query pipeline (`query_noirlab.py`)

A shallow embedding of the single source file `query_noirlab.py` of the
repository `query_noirlab_data_cutouts`, together with theorems settling
the specification claims about it.

Modelling conventions:
* Python numbers are exact decimals `Dec` (mantissa and decimal exponent);
  every value the script compares or renders is a decimal literal that a
  Python float represents faithfully through `str`/`repr`.  `Dec.toRat`
  bridges to `ℚ` where a claim speaks about numeric order.
* Python exceptions become an inductive `PyError`; `sys.exit()` becomes
  `PyError.systemExit`.
* Network and file-system effects are recorded as an explicit `Event` trace,
  and the responses of the remote service, the local reference tables and
  the directory-existence facts are inputs of the pipeline function.
* Astropy unit annotations are the strings astropy prints for them:
  `u.dimensionless_unscaled` is `""`, `u.si.degree` is `"deg"`, `u.mag`
  is `"mag"`; an unparsed tag such as `"Degrees"` stays as that string.
* String helpers (`split`, `strip`, `replace`, …) are written as structural
  recursions over the character list, mirroring the Python operations.
-/

namespace QueryNoirlab

/-- The Python-level failures the script can raise.  `systemExit` models
`sys.exit()` (from `validate_survey`), `keyError` a missing column on row
access. -/
inductive PyError : Type where
  | typeError (msg : String)
  | valueError (msg : String)
  | notImplementedError (msg : String)
  | keyError (key : String)
  | systemExit
deriving DecidableEq, Repr

/-- The error taxonomy of the specification (§7). -/
inductive ErrKind : Type where
  | typeKind
  | rangeKind
  | notFoundKind
  | notImplementedKind
  | remoteKind
deriving DecidableEq, Repr

/-- Decidable equality on `Except`, so concrete runs evaluate by `decide`. -/
instance {ε α : Type} [DecidableEq ε] [DecidableEq α] :
    DecidableEq (Except ε α) := fun x y =>
  match x, y with
  | .ok a, .ok b =>
      if h : a = b then .isTrue (by rw [h])
      else .isFalse (by intro hc; cases hc; exact h rfl)
  | .error a, .error b =>
      if h : a = b then .isTrue (by rw [h])
      else .isFalse (by intro hc; cases hc; exact h rfl)
  | .ok _, .error _ => .isFalse (by intro hc; cases hc)
  | .error _, .ok _ => .isFalse (by intro hc; cases hc)

/-- `10 ^ k` through the kernel-friendly `Nat.pow`. -/
def tenPow (k : ℕ) : ℕ := Nat.pow 10 k

/-- An exact decimal `num / 10 ^ exp`, the value of a Python decimal
literal.  Comparisons and rendering below use only integer arithmetic. -/
structure Dec : Type where
  num : ℤ
  exp : ℕ
deriving DecidableEq, Repr

/-- The rational value of a decimal. -/
def Dec.toRat (d : Dec) : ℚ := (d.num : ℚ) / (10 : ℚ) ^ d.exp

instance : LE Dec := ⟨fun a b => a.num * (tenPow b.exp : ℤ) ≤ b.num * (tenPow a.exp : ℤ)⟩

instance : LT Dec := ⟨fun a b => a.num * (tenPow b.exp : ℤ) < b.num * (tenPow a.exp : ℤ)⟩

instance (a b : Dec) : Decidable (a ≤ b) :=
  inferInstanceAs (Decidable (a.num * (tenPow b.exp : ℤ) ≤ b.num * (tenPow a.exp : ℤ)))

instance (a b : Dec) : Decidable (a < b) :=
  inferInstanceAs (Decidable (a.num * (tenPow b.exp : ℤ) < b.num * (tenPow a.exp : ℤ)))

/-- The digit character for `d < 10`. -/
def digitChar (d : ℕ) : Char := Char.ofNat (48 + d)

/-- Decimal digits of `n`, most significant first (`fuel`-recursive so the
kernel evaluates it; `fuel ≥ n` suffices). -/
def natStrAux : ℕ → ℕ → List Char
  | 0, _ => []
  | fuel + 1, n =>
      if n < 10 then [digitChar n]
      else natStrAux fuel (n / 10) ++ [digitChar (n % 10)]

/-- Python's `str()` of a nonnegative integer. -/
def natStr (n : ℕ) : String := String.mk (natStrAux (n + 1) n)

/-- Python's `str()` of an integer. -/
def intStr (i : ℤ) : String :=
  if i < 0 then "-" ++ natStr i.natAbs else natStr i.natAbs

/-- Drop trailing zero digits of the mantissa (`fuel`-recursive on the
exponent), yielding the canonical form `str` prints. -/
def Dec.shorten : ℕ → ℤ → ℕ → ℤ × ℕ
  | 0, n, e => (n, e)
  | fuel + 1, n, e =>
      if e = 0 then (n, 0)
      else if n % 10 = 0 then Dec.shorten fuel (n / 10) (e - 1)
      else (n, e)

/-- Python's `str()` of a float holding the exact decimal `d` (CPython
prints the shortest round-tripping decimal, which for the script's decimal
literals is the literal itself; an integral float prints with `.0`). -/
def decFloatStr (d : Dec) : String :=
  let (n, e) := Dec.shorten d.exp d.num d.exp
  let sign := if n < 0 then "-" else ""
  let a := n.natAbs
  if e = 0 then sign ++ natStr a ++ ".0"
  else
    let digits := natStr (a % tenPow e)
    sign ++ natStr (a / tenPow e) ++ "."
      ++ String.mk (List.replicate (e - digits.data.length) '0') ++ digits

/-- Fixed-point rendering with `k` fractional digits, as in the `%.5f` /
`%.3f` f-string conversions of the confirmation messages (rounding of an
exact half differs from CPython's float formatting, which no claim meets). -/
def fmtFixed (d : Dec) (k : ℕ) : String :=
  let sign := if d.num < 0 then "-" else ""
  let scaled := (d.num.natAbs * tenPow k + tenPow d.exp / 2) / tenPow d.exp
  let digits := natStr (scaled % tenPow k)
  sign ++ natStr (scaled / tenPow k) ++ "."
    ++ String.mk (List.replicate (k - digits.data.length) '0') ++ digits

/-- Membership of `a` in `l` as a boolean, as Python's `in`. -/
def listHas {α : Type} [DecidableEq α] (l : List α) (a : α) : Bool :=
  l.any (fun x => decide (x = a))

/-- Python's whitespace class for `str.strip()`. -/
def wsChar (c : Char) : Bool :=
  c = ' ' ∨ c = '\t' ∨ c = '\n' ∨ c = '\r' ∨ c = Char.ofNat 11 ∨ c = Char.ofNat 12

/-- `str.strip()`: drop whitespace from both ends. -/
def chTrim (l : List Char) : List Char :=
  ((l.dropWhile wsChar).reverse.dropWhile wsChar).reverse

/-- `str.split(sep)` on the character list (`sep` a single character);
the empty string yields `[""]`, as in Python. -/
def chSplit (sep : Char) : List Char → List (List Char)
  | [] => [[]]
  | c :: cs =>
      match chSplit sep cs with
      | [] => [[c]]
      | g :: gs => if c = sep then [] :: g :: gs else (c :: g) :: gs

/-- `str.split(sep)` returning strings. -/
def pySplit (sep : Char) (s : String) : List String :=
  (chSplit sep s.data).map String.mk

/-- `str.replace(c, r)` for a one-character pattern. -/
def chReplace (c : Char) (r : List Char) : List Char → List Char
  | [] => []
  | x :: xs => if x = c then r ++ chReplace c r xs else x :: chReplace c r xs

/-- `str.replace(c, r)` on strings, one-character pattern. -/
def pyReplace (s : String) (c : Char) (r : String) : String :=
  String.mk (chReplace c r.data s.data)

/-- `str.endswith(t)` via the character lists. -/
def strEndsWith (s t : String) : Bool :=
  Nat.ble t.data.length s.data.length &&
    listHas [t.data] (s.data.drop (s.data.length - t.data.length))

/-- Modelled from the spec (§7): classification of the raised Python errors
into the spec's error kinds.  `TypeKind` is the script's `TypeError`,
`NotImplementedKind` its `NotImplementedError`; among the `ValueError`s,
the ones reporting an identifier "not available!" (absent from a reference
table) are `NotFoundKind` and the numeric-bounds one is `RangeKind`.
`remoteKind` covers the remaining failures of the remote interaction. -/
def kindOf : PyError → ErrKind
  | .typeError _ => .typeKind
  | .notImplementedError _ => .notImplementedKind
  | .valueError m =>
      if strEndsWith m "not available!" then .notFoundKind else .rangeKind
  | .keyError _ => .remoteKind
  | .systemExit => .remoteKind

/-- A Python value that can sit in the YAML `radius` field.  Python's
`bool` is a subclass of `int`, so `isinstance(True, (int, float))` holds;
`pyBool` therefore counts as numeric below, exactly as in CPython. -/
inductive RadiusInput : Type where
  | pyInt (n : ℤ)
  | pyFloat (d : Dec)
  | pyBool (b : Bool)
  | pyStr (s : String)
  | pyNone
deriving DecidableEq, Repr

/-- `isinstance(radius, (int, float))` — `True`/`False` are `int`s in Python. -/
def RadiusInput.isNumber : RadiusInput → Bool
  | .pyInt _ => true
  | .pyFloat _ => true
  | .pyBool _ => true
  | _ => false

/-- Numeric value of a numeric `RadiusInput` (`True` is 1, `False` is 0). -/
def RadiusInput.toDec : RadiusInput → Dec
  | .pyInt n => ⟨n, 0⟩
  | .pyFloat d => d
  | .pyBool b => if b then ⟨1, 0⟩ else ⟨0, 0⟩
  | _ => ⟨0, 0⟩

/-- Python's `str()` of the raw `radius` value from the YAML settings. -/
def radiusStr : RadiusInput → String
  | .pyInt n => intStr n
  | .pyFloat d => decFloatStr d
  | .pyBool b => if b then "True" else "False"
  | .pyStr s => s
  | .pyNone => "None"

/-- `str(radius).replace('.', 'p')`, the radius part of the output basenames. -/
def radiusTag (radius : RadiusInput) : String :=
  pyReplace (radiusStr radius) '.' "p"

/-- `validate_radius` (lines 74-83): `TypeError` unless the input is an
`int`/`float`, `ValueError` unless `0 < radius <= 1.5`, otherwise the
argument is returned unchanged. -/
def validate_radius (radius : RadiusInput) : Except PyError RadiusInput :=
  if radius.isNumber = false then
    .error (.typeError "Radius must be a number.")
  else if radius.toDec ≤ ⟨0, 0⟩ ∨ (⟨15, 1⟩ : Dec) < radius.toDec then
    .error (.valueError "Radius must be > 0 and <= 1.5 deg.")
  else
    .ok radius

/-- The YAML `object` entry: an integer field id or a cluster-name string. -/
inductive PyObj : Type where
  | pyInt (n : ℤ)
  | pyStr (s : String)
deriving DecidableEq, Repr

/-- Python's `str()` / f-string interpolation of the `object` value. -/
def pyObjStr : PyObj → String
  | .pyInt n => intStr n
  | .pyStr s => s

/-- Digit parsing for `int()` of a string. -/
def chToInt : List Char → Option ℕ
  | [] => none
  | [c] => if c.isDigit then some (c.toNat - 48) else none
  | c :: cs =>
      match chToInt cs, c.isDigit with
      | some n, true => some ((c.toNat - 48) * tenPow cs.length + n)
      | _, _ => none

/-- Python's `int()` conversion of the `object` value (a non-numeric string
raises `ValueError`). -/
def pyIntOf : PyObj → Except PyError ℤ
  | .pyInt n => .ok n
  | .pyStr s =>
      match s.data with
      | '-' :: rest =>
          match chToInt rest with
          | some n => .ok (-(n : ℤ))
          | none => .error (.valueError
              ("invalid literal for int() with base 10: " ++ s))
      | l =>
          match chToInt l with
          | some n => .ok (n : ℤ)
          | none => .error (.valueError
              ("invalid literal for int() with base 10: " ++ s))

/-- numpy's `.item()`: the sole element of a size-1 selection, a `ValueError`
for any other size. -/
def npItem {α : Type} : List α → Except PyError α
  | [x] => .ok x
  | _ => .error (.valueError "can only convert an array of size 1 to a Python scalar")

/-- A row of the `TAP-List-of-Fields.fits` reference table. -/
structure FieldRow : Type where
  fieldid : ℤ
  ra : Dec
  dec : Dec
deriving DecidableEq, Repr

/-- numpy's elementwise `fields['fieldid'] == settings['object']`: comparing
the integer column against a string yields `False` everywhere. -/
def fieldidEq (id : ℤ) : PyObj → Bool
  | .pyInt n => decide (id = n)
  | .pyStr _ => false

/-- `get_smash_field` (lines 86-100): look the field id up in the local
reference table (`ValueError` when absent), and return its (ra, dec), the
derived basename `TAP_f<id>_<radius-with-dot-as-p>deg` and the confirmation
message.  The reference rows stand in for the FITS file named by
`settings['tabs_path']`. -/
def get_smash_field (fields : List FieldRow) (obj : PyObj)
    (radius : RadiusInput) : Except PyError (Dec × Dec × String × String) := do
  let n ← pyIntOf obj
  if listHas (fields.map (fun r => r.fieldid)) n = false then
    throw (.valueError ("Field " ++ pyObjStr obj ++ " not available!"))
  else
    let line := fields.filter (fun r => fieldidEq r.fieldid obj)
    let row ← npItem line
    let fname := "TAP_f" ++ intStr row.fieldid ++ "_" ++ radiusTag radius ++ "deg"
    let msg := "Field " ++ intStr row.fieldid ++ " (RA " ++ fmtFixed row.ra 5
      ++ ", DEC " ++ fmtFixed row.dec 5 ++ "), rad = "
      ++ fmtFixed radius.toDec 3 ++ " deg?"
    return (row.ra, row.dec, fname, msg)

/-- A row of a Bica cluster catalog, restricted to the selected columns
`["Names", "_RAJ2000", "_DEJ2000"]`. -/
structure BicaRow : Type where
  names : String
  raj2000 : Dec
  dej2000 : Dec
deriving DecidableEq, Repr

/-- `n.strip().split(',')` (line 117): the whole name field is stripped and
then split on commas, so every alias after the first keeps the space that
follows the comma. -/
def splitAliases (s : String) : List String :=
  (chSplit ',' (chTrim s.data)).map String.mk

/-- Python's `==` between the requested `object` and one alias string (an
integer compares unequal to every string). -/
def pyEqAlias (obj : PyObj) (a : String) : Bool :=
  match obj with
  | .pyStr s => decide (s = a)
  | .pyInt _ => false

/-- `get_cluster_coords` (lines 103-130): vstack the two Bica catalogs,
split each name field into its alias list, require membership of the
requested name (`NotImplementedError` otherwise), select the matching rows
with a boolean mask and take the single row via `.item()`; return its
coordinates, the basename `<name-without-spaces>_<radius>deg` and the
confirmation message. -/
def get_cluster_coords (bica08 bica20 : List BicaRow) (obj : PyObj)
    (radius : RadiusInput) : Except PyError (Dec × Dec × String × String) := do
  let bicao := bica08 ++ bica20
  let names := bicao.map (fun r => splitAliases r.names)
  if names.flatten.any (fun a => pyEqAlias obj a) = false then
    throw (.notImplementedError
      ("Cluster " ++ pyObjStr obj ++ " not available!"
        ++ " Vizier search will be implemented."))
  else
    let idx := names.map (fun item => item.any (fun a => pyEqAlias obj a))
    let sel := (bicao.zip idx).filterMap (fun p => if p.2 then some p.1 else none)
    let row ← npItem sel
    let ra := row.raj2000
    let dec := row.dej2000
    let fname := pyReplace (pyObjStr obj) ' ' "" ++ "_" ++ radiusTag radius ++ "deg"
    let msg := pyObjStr obj ++ " (RA " ++ fmtFixed ra 5 ++ ", Dec "
      ++ fmtFixed dec 5 ++ "), rad = " ++ fmtFixed radius.toDec 3 ++ "?"
    return (ra, dec, fname, msg)

/-- Observable effects of a run: the two remote calls, the loads of the
local reference tables by the two resolution strategies, console prints,
and the file-system writes. -/
inductive Event : Type where
  | metadataQuery (schema : String)
  | dataQuery (db : String) (ra dec rad : Dec)
  | fieldLookup
  | clusterLookup
  | printed (msg : String)
  | madeDir (path : String)
  | wroteFile (path : String)
deriving DecidableEq, Repr

/-- `validate_survey` (lines 52-72): the schema must sit in the bundled
allow-list, and the fully qualified name in the live response of the
metadata query; either failure prints a message and exits.  The metadata
network call is issued unconditionally, before any check can fail. -/
def validate_survey (data_full_name : String) (availableSurveys : List String)
    (remoteTables : List String) : List Event × Except PyError Unit :=
  let schema_name := (pySplit '.' data_full_name).headD ""
  let check_1 := listHas availableSurveys schema_name
  let evs := [Event.metadataQuery schema_name]
  let check_2 := listHas remoteTables data_full_name
  if check_1 = false ∨ check_2 = false then
    (evs ++ [.printed ("Survey " ++ data_full_name ++ " not available!")],
     .error .systemExit)
  else
    (evs, .ok ())

/-- A table column: name, unit annotation (see the header conventions) and
cell values (cell types beyond the unit metadata are immaterial here). -/
structure Column : Type where
  name : String
  unit : String
  values : List Dec
deriving DecidableEq, Repr

/-- An astropy table as a list of columns; all columns share one row count. -/
structure PTable : Type where
  cols : List Column
deriving DecidableEq, Repr

/-- `download_data` (lines 133-162): one cone-search data query; the
response table is returned as-is.  The per-row read of the `ra` column
(lines 154-156) is value-only; its one observable effect is a `KeyError`
when rows exist but no `ra` column does.  The elapsed-time print is not
modelled (wall-clock time is outside the embedding). -/
def download_data (db : String) (RA DEC rad : Dec) (response : PTable) :
    List Event × Except PyError PTable :=
  let evs := [Event.dataQuery db RA DEC rad]
  let nrows := (response.cols.headD ⟨"", "", []⟩).values.length
  if nrows ≠ 0 ∧ response.cols.all (fun c => c.name ≠ "ra") then
    (evs, .error (.keyError "ra"))
  else
    (evs, .ok response)

/-- The unit-normalization mapping of `save_cat` (lines 171-179), written on
the string representations of the units: `""` is `u.dimensionless_unscaled`,
`"deg"` is `u.si.degree`, `"mag"` is `u.mag`; any other annotation is an
unrecognized tag that compares equal only to its own string. -/
def normalize_unit (uu : String) : String :=
  if uu = "None" then ""
  else if uu = "Degrees" then "deg"
  else if uu = "degrees" then "deg"
  else if uu = "Magnitude" then "mag"
  else uu

/-- The string astropy prints for `u.dimensionless_unscaled`. -/
def dimensionlessUnit : String := ""

/-- The string astropy prints for `u.si.degree`. -/
def degreeUnit : String := "deg"

/-- The string astropy prints for `u.mag`. -/
def magnitudeUnit : String := "mag"

/-- `save_cat` (lines 165-190): normalize every column's unit annotation
in place, then — only if the output directory exists — ensure the
`catalogs/` subdirectory and write `<pre>/catalogs/<fname>.fits`; a missing
output directory just prints a notice.  The normalized table is returned
either way.  `preIsDir` / `catalogsIsDir` are the `os.path.isdir` facts. -/
def save_cat (table : PTable) (fname : String) (pre : String)
    (preIsDir catalogsIsDir : Bool) : PTable × List Event :=
  let table2 : PTable :=
    ⟨table.cols.map (fun c => { c with unit := normalize_unit c.unit })⟩
  if preIsDir then
    let mk : List Event :=
      if catalogsIsDir then [] else [.madeDir (pre ++ "/catalogs/")]
    (table2, mk ++ [.wroteFile (pre ++ "/catalogs/" ++ fname ++ ".fits"),
      .printed ("Catalog saved as \"" ++ pre ++ "/" ++ fname ++ ".fits\"")])
  else
    (table2, [.printed "Catalog not saved: directory does not exist!"])

/-- The YAML settings of a run (the keys `main` reads; `type` is a Lean
keyword, hence `qtype`; `tabs_path` only names the reference-table files,
which the environment below carries directly). -/
structure Settings : Type where
  schema_name : String
  table_name : String
  qtype : String
  object : PyObj
  radius : RadiusInput
deriving Repr

/-- Everything outside the process a run observes: the bundled allow-list,
the two remote responses, the local reference tables, the script directory
`path` and the directory-existence facts. -/
structure Env : Type where
  availableSurveys : List String
  remoteTables : List String
  fields : List FieldRow
  bica08 : List BicaRow
  bica20 : List BicaRow
  resultTable : PTable
  path : String
  pathIsDir : Bool
  catalogsIsDir : Bool
deriving Repr

/-- `main` (lines 28-49): survey validation (with its metadata network
call), radius validation, strategy dispatch on `settings['type']`, the data
query, filename assembly `<schema_name>_<basename>` and persistence.  The
result is the event trace plus the saved table or the first raised error. -/
def mainRun (settings : Settings) (env : Env) :
    List Event × Except PyError PTable :=
  let data_name := settings.schema_name ++ "." ++ settings.table_name
  let (ev1, r1) := validate_survey data_name env.availableSurveys env.remoteTables
  match r1 with
  | .error e => (ev1, .error e)
  | .ok _ =>
    match validate_radius settings.radius with
    | .error e => (ev1, .error e)
    | .ok rad =>
      let (ev2, info) :=
        if settings.qtype = "SMASH field" then
          ([Event.fieldLookup], get_smash_field env.fields settings.object rad)
        else if settings.qtype = "cluster" then
          ([Event.clusterLookup],
           get_cluster_coords env.bica08 env.bica20 settings.object rad)
        else
          ([], .error (.notImplementedError
            "Type must be 'SMASH field' or 'cluster'."))
      match info with
      | .error e => (ev1 ++ ev2, .error e)
      | .ok (ra, dec, basename, _msg) =>
        let (ev3, dl) := download_data data_name ra dec rad.toDec env.resultTable
        match dl with
        | .error e => (ev1 ++ ev2 ++ ev3, .error e)
        | .ok table =>
          let fname := settings.schema_name ++ "_" ++ basename
          let (table2, ev4) :=
            save_cat table fname env.path env.pathIsDir env.catalogsIsDir
          (ev1 ++ ev2 ++ ev3 ++ ev4, .ok table2)

/-- `True` exactly for the remote data query among the events. -/
def isDataQuery : Event → Bool
  | .dataQuery _ _ _ _ => true
  | _ => false

/-- `True` exactly for the remote metadata query among the events. -/
def isMetadataQuery : Event → Bool
  | .metadataQuery _ => true
  | _ => false

/-- `True` exactly for the output-file write among the events. -/
def isWrite : Event → Bool
  | .wroteFile _ => true
  | _ => false

/-- `True` exactly for the two local coordinate-resolution lookups. -/
def isResolution : Event → Bool
  | .fieldLookup => true
  | .clusterLookup => true
  | _ => false

/-- The end-to-end scenario settings of the spec (§8): SMASH field 42,
radius 0.5 degrees, dataset `smash_dr2.object`. -/
def exampleSettings : Settings :=
  { schema_name := "smash_dr2", table_name := "object",
    qtype := "SMASH field", object := .pyInt 42, radius := .pyFloat ⟨5, 1⟩ }

/-- An environment realizing the spec's end-to-end scenario: the allow-list
and remote registry know `smash_dr2.object`, the field table holds field 42
at (ra 10.12345, dec -65.54321), the data query returns one row, and the
output directory `/out` exists without a `catalogs/` subdirectory. -/
def exampleEnv : Env :=
  { availableSurveys := ["smash_dr2"], remoteTables := ["smash_dr2.object"],
    fields := [⟨42, ⟨1012345, 5⟩, ⟨-6554321, 5⟩⟩],
    bica08 := [], bica20 := [],
    resultTable := ⟨[⟨"ra", "Degrees", [⟨1, 0⟩]⟩]⟩,
    path := "/out", pathIsDir := true, catalogsIsDir := false }

/-- The scenario settings with the out-of-range radius 2.0. -/
def radius2Settings : Settings :=
  { exampleSettings with radius := .pyFloat ⟨2, 0⟩ }

/-- The scenario settings with a `type` that names no strategy. -/
def coordSettings : Settings :=
  { exampleSettings with qtype := "coordinates" }

/-! ## Helper lemmas -/

lemma exceptBind_ok {e a b : Type} (x : a) (f : a → Except e b) :
    (Except.ok x >>= f) = f x := rfl

lemma exceptPure {e a : Type} (x : a) : (pure x : Except e a) = .ok x := rfl

lemma exceptBind_err {e a b : Type} (x : e) (f : a → Except e b) :
    (Except.error x >>= f) = .error x := rfl

lemma tenPow_castQ (k : ℕ) : ((tenPow k : ℤ) : ℚ) = 10 ^ k := by
  push_cast [tenPow, Nat.pow_eq]
  ring

lemma Dec.le_iff (a b : Dec) : a ≤ b ↔ a.toRat ≤ b.toRat := by
  show a.num * (tenPow b.exp : ℤ) ≤ b.num * (tenPow a.exp : ℤ) ↔ _
  rw [Dec.toRat, Dec.toRat, div_le_div_iff₀ (by positivity) (by positivity),
    ← tenPow_castQ b.exp, ← tenPow_castQ a.exp, ← Int.cast_mul, ← Int.cast_mul,
    Int.cast_le]

lemma Dec.lt_iff (a b : Dec) : a < b ↔ a.toRat < b.toRat := by
  show a.num * (tenPow b.exp : ℤ) < b.num * (tenPow a.exp : ℤ) ↔ _
  rw [Dec.toRat, Dec.toRat, div_lt_div_iff₀ (by positivity) (by positivity),
    ← tenPow_castQ b.exp, ← tenPow_castQ a.exp, ← Int.cast_mul, ← Int.cast_mul,
    Int.cast_lt]

lemma listHas_iff {α : Type} [DecidableEq α] (l : List α) (a : α) :
    listHas l a = true ↔ a ∈ l := by
  simp [listHas]

lemma toRat_zeroDec : (Dec.mk 0 0).toRat = 0 := by
  simp [Dec.toRat]

lemma toRat_threeHalves : (Dec.mk 15 1).toRat = 3 / 2 := by
  rw [Dec.toRat]
  norm_num

lemma zip_mask_filterMap {α : Type} (l : List α) (g : α → Bool) :
    (l.zip (l.map g)).filterMap (fun p => if p.2 then some p.1 else none) =
      l.filter g := by
  induction l with
  | nil => rfl
  | cons hd tl ih =>
      by_cases h : g hd <;>
        simp [List.zip_cons_cons, List.filterMap_cons, h, ih, List.filter_cons]

lemma strEndsWith_of_data (s t : String) (x : List Char)
    (hx : s.data = x ++ t.data) : strEndsWith s t = true := by
  unfold strEndsWith
  rw [hx, List.length_append, Nat.add_sub_cancel, List.drop_left]
  simp [listHas, Nat.ble_eq]

lemma field_msg_kind (n : ℤ) :
    kindOf (.valueError ("Field " ++ intStr n ++ " not available!")) =
      .notFoundKind := by
  have he : strEndsWith ("Field " ++ intStr n ++ " not available!")
      "not available!" = true := by
    apply strEndsWith_of_data _ _ (("Field " ++ intStr n).data ++ [' '])
    have h1 : (" not available!" : String).data =
        ' ' :: ("not available!" : String).data := rfl
    rw [String.data_append, h1]
    simp [List.append_assoc]
  simp [kindOf, he]

lemma get_smash_field_absent (fields : List FieldRow) (n : ℤ)
    (radius : RadiusInput) (h : n ∉ fields.map (fun r => r.fieldid)) :
    get_smash_field fields (.pyInt n) radius =
      .error (.valueError ("Field " ++ intStr n ++ " not available!")) := by
  have hf : listHas (fields.map (fun r => r.fieldid)) n = false := by
    rw [Bool.eq_false_iff]
    intro hc
    exact h ((listHas_iff _ _).mp hc)
  simp only [get_smash_field, pyIntOf, exceptBind_ok, hf]
  rfl

lemma get_cluster_coords_absent (bica08 bica20 : List BicaRow) (s : String)
    (radius : RadiusInput)
    (habs : ∀ r ∈ bica08 ++ bica20, s ∉ splitAliases r.names) :
    get_cluster_coords bica08 bica20 (.pyStr s) radius =
      .error (.notImplementedError
        ("Cluster " ++ s ++ " not available!"
          ++ " Vizier search will be implemented.")) := by
  have hguard : (((bica08 ++ bica20).map
      (fun r => splitAliases r.names)).flatten.any
        (fun a => pyEqAlias (.pyStr s) a)) = false := by
    rw [Bool.eq_false_iff]
    intro hc
    rcases List.any_eq_true.mp hc with ⟨a, ha, hpa⟩
    rcases List.mem_flatten.mp ha with ⟨l, hl, hal⟩
    rcases List.mem_map.mp hl with ⟨r, hr, hreq⟩
    have hsa : s = a := by simpa [pyEqAlias] using hpa
    exact habs r hr (hreq ▸ hsa ▸ hal)
  simp only [get_cluster_coords, hguard]
  rw [if_pos trivial]
  rfl

lemma get_smash_field_fname (fields : List FieldRow) (n : ℤ)
    (radius : RadiusInput) (out : Dec × Dec × String × String)
    (hok : get_smash_field fields (.pyInt n) radius = .ok out) :
    out.2.2.1 = "TAP_f" ++ intStr n ++ "_" ++ radiusTag radius ++ "deg" := by
  by_cases hmem : listHas (fields.map (fun r => r.fieldid)) n = false
  · simp only [get_smash_field, pyIntOf, exceptBind_ok, hmem] at hok
    cases hok
  · simp only [Bool.not_eq_false] at hmem
    rcases hline : fields.filter (fun r => fieldidEq r.fieldid (.pyInt n))
      with _ | ⟨x, _ | ⟨y, tl⟩⟩
    · simp only [get_smash_field, pyIntOf, exceptBind_ok, exceptPure,
        exceptBind_err, hline, npItem] at hok
      rw [if_neg (by simp [hmem])] at hok
      cases hok
    · have hx : x ∈ fields.filter (fun r => fieldidEq r.fieldid (.pyInt n)) := by
        rw [hline]
        exact List.mem_singleton_self x
      have hfid : x.fieldid = n := by
        have := (List.mem_filter.mp hx).2
        simpa [fieldidEq] using this
      simp only [get_smash_field, pyIntOf, exceptBind_ok, exceptPure,
        exceptBind_err, hline, npItem] at hok
      rw [if_neg (by simp [hmem])] at hok
      injection hok with h2
      rw [← h2]
      simp [hfid]
    · simp only [get_smash_field, pyIntOf, exceptBind_ok, exceptPure,
        exceptBind_err, hline, npItem] at hok
      rw [if_neg (by simp [hmem])] at hok
      cases hok

lemma validate_survey_shape (d : String) (a r : List String) :
    validate_survey d a r =
      ([.metadataQuery ((pySplit '.' d).headD "")], .ok ()) ∨
    validate_survey d a r =
      ([.metadataQuery ((pySplit '.' d).headD ""),
        .printed ("Survey " ++ d ++ " not available!")], .error .systemExit) := by
  by_cases hc : (listHas a ((pySplit '.' d).headD "") = false ∨ listHas r d = false)
  · right
    rw [List.headD_eq_head?] at hc
    simp [validate_survey, hc]
  · left
    rw [List.headD_eq_head?] at hc
    simp only [not_or, Bool.not_eq_false] at hc
    simp [validate_survey, hc.1, hc.2]

lemma mainRun_error_no_write (s : Settings) (env : Env) (e : PyError)
    (h : (mainRun s env).2 = .error e) :
    (mainRun s env).1.all (fun ev => !isWrite ev) = true := by
  rcases validate_survey_shape (s.schema_name ++ "." ++ s.table_name)
    env.availableSurveys env.remoteTables with hs | hs
  · simp only [mainRun, hs] at h ⊢
    rcases hr : validate_radius s.radius with e1 | rad
    · simp only [hr] at h ⊢
      rfl
    · simp only [hr] at h ⊢
      by_cases h1 : s.qtype = "SMASH field"
      · rw [if_pos h1] at h ⊢
        rcases hi : get_smash_field env.fields s.object rad
          with e2 | ⟨ra, dec2, bn, msg⟩
        · simp only [hi] at h ⊢
          rfl
        · simp only [hi, download_data] at h ⊢
          by_cases hd : ((env.resultTable.cols.headD ⟨"", "", []⟩).values.length ≠ 0 ∧
              env.resultTable.cols.all (fun c => c.name ≠ "ra") = true)
          · rw [if_pos hd] at h ⊢
            rfl
          · rw [if_neg hd] at h
            cases h
      · rw [if_neg h1] at h ⊢
        by_cases h2 : s.qtype = "cluster"
        · rw [if_pos h2] at h ⊢
          rcases hi : get_cluster_coords env.bica08 env.bica20 s.object rad
            with e2 | ⟨ra, dec2, bn, msg⟩
          · simp only [hi] at h ⊢
            rfl
          · simp only [hi, download_data] at h ⊢
            by_cases hd : ((env.resultTable.cols.headD ⟨"", "", []⟩).values.length ≠ 0 ∧
                env.resultTable.cols.all (fun c => c.name ≠ "ra") = true)
            · rw [if_pos hd] at h ⊢
              rfl
            · rw [if_neg hd] at h
              cases h
        · rw [if_neg h2] at h ⊢
          rfl
  · simp only [mainRun, hs]
    rfl

/-! ## Claims -/

/-- C1: the spec requires that every alias of a comma-separated alias list
resolves, and in particular that for the row "NGC 104, 47 Tuc" both
"NGC 104" and "47 Tuc" resolve to the row's coordinates.  The code strips
the whole name field BEFORE splitting on commas, so the second alias is
kept as " 47 Tuc" with its leading space: resolving "NGC 104" succeeds
with the row's coordinates, but resolving "47 Tuc" raises — the claimed
property fails on the code. -/
theorem C1_second_alias_fails :
    get_cluster_coords [⟨"NGC 104, 47 Tuc", ⟨60223, 4⟩, ⟨-720814, 4⟩⟩] []
        (.pyStr "NGC 104") (.pyFloat ⟨5, 1⟩) =
      .ok (⟨60223, 4⟩, ⟨-720814, 4⟩, "NGC104_0p5deg",
        "NGC 104 (RA 6.02230, Dec -72.08140), rad = 0.500?") ∧
    splitAliases "NGC 104, 47 Tuc" = ["NGC 104", " 47 Tuc"] ∧
    get_cluster_coords [⟨"NGC 104, 47 Tuc", ⟨60223, 4⟩, ⟨-720814, 4⟩⟩] []
        (.pyStr "47 Tuc") (.pyFloat ⟨5, 1⟩) =
      .error (.notImplementedError
        "Cluster 47 Tuc not available! Vizier search will be implemented.") :=
  ⟨by decide, by decide, by decide⟩

/-- C3 counterexample: with the output directory missing, `save_cat` does
NOT return the table unchanged — a column tagged "Degrees" comes back
retagged "deg", because unit normalization runs before the directory
check. -/
theorem C3_counterexample :
    (save_cat ⟨[⟨"ra", "Degrees", [⟨1, 0⟩]⟩]⟩ "cat" "/out" false false).1 ≠
      ⟨[⟨"ra", "Degrees", [⟨1, 0⟩]⟩]⟩ :=
  by decide

/-- C3 (amended): when the output directory does not exist, `save_cat`
skips the write entirely (its only effect is the printed notice) and
returns the table with names and values untouched and exactly the unit
annotations normalized. -/
theorem C3_missing_dir_skips_write (table : PTable) (fname pre : String)
    (catalogsIsDir : Bool) :
    (save_cat table fname pre false catalogsIsDir).2 =
      [.printed "Catalog not saved: directory does not exist!"] ∧
    (save_cat table fname pre false catalogsIsDir).1.cols.map Column.name =
      table.cols.map Column.name ∧
    (save_cat table fname pre false catalogsIsDir).1.cols.map Column.values =
      table.cols.map Column.values ∧
    (save_cat table fname pre false catalogsIsDir).1.cols.map Column.unit =
      table.cols.map (fun c => normalize_unit c.unit) := by
  refine ⟨rfl, ?_, ?_, ?_⟩ <;> simp [save_cat]

/-- C4: unit normalization sends "Degrees", "degrees" and "" to the
angular-degree unit, the angular-degree unit and the dimensionless unit
("" already denotes the dimensionless unit and passes through), "None" to
dimensionless, "Magnitude" to the astronomical magnitude unit, and leaves
every other annotation (in particular an already-canonical one) unchanged. -/
theorem C4_unit_normalization :
    normalize_unit "Degrees" = degreeUnit ∧
    normalize_unit "degrees" = degreeUnit ∧
    normalize_unit "" = dimensionlessUnit ∧
    normalize_unit "None" = dimensionlessUnit ∧
    normalize_unit "Magnitude" = magnitudeUnit ∧
    (∀ uu : String, uu ≠ "None" → uu ≠ "Degrees" → uu ≠ "degrees" →
      uu ≠ "Magnitude" → normalize_unit uu = uu) := by
  refine ⟨by decide, by decide, by decide, by decide, by decide, ?_⟩
  intro uu h1 h2 h3 h4
  simp [normalize_unit, h1, h2, h3, h4]

/-- C4 witness: the already-canonical annotation "deg" passes through. -/
theorem C4_witness : normalize_unit "deg" = "deg" :=
  C4_unit_normalization.2.2.2.2.2 "deg" (by decide) (by decide) (by decide)
    (by decide)

/-- C7: every non-numeric radius input is rejected with the `TypeError`
"Radius must be a number.", the error the spec labels `TypeKind`. -/
theorem C7_nonnumeric_radius (r : RadiusInput) (h : r.isNumber = false) :
    validate_radius r = .error (.typeError "Radius must be a number.") ∧
    kindOf (.typeError "Radius must be a number.") = .typeKind :=
  ⟨by simp [validate_radius, h], rfl⟩

/-- C7 witness: the string input "two" is rejected with `TypeError`. -/
theorem C7_witness :
    validate_radius (.pyStr "two") =
      .error (.typeError "Radius must be a number.") ∧
    kindOf (.typeError "Radius must be a number.") = .typeKind :=
  C7_nonnumeric_radius (.pyStr "two") rfl

/-- C2 counterexample: the run with radius 2.0 IS rejected by radius
validation, but the remote metadata query of survey validation has already
been issued by then — the claim that no network call is made before the
rejection fails on the code (survey validation runs first in `main`). -/
theorem C2_counterexample :
    mainRun radius2Settings exampleEnv =
      ([.metadataQuery "smash_dr2"],
        .error (.valueError "Radius must be > 0 and <= 1.5 deg.")) ∧
    .metadataQuery "smash_dr2" ∈ (mainRun radius2Settings exampleEnv).1 :=
  ⟨by decide, by decide⟩

/-- C2 (amended): a run whose radius fails validation is rejected before
the remote DATA query — the trace holds no data query, no reference-table
lookup and no file write, and the run ends in an error (the radius error,
or the survey exit when survey validation already failed); the metadata
query of survey validation, however, has already been issued. -/
theorem C2_rejected_before_data_query (s : Settings) (env : Env)
    (e : PyError) (hrad : validate_radius s.radius = .error e) :
    (mainRun s env).1.all
      (fun ev => !isDataQuery ev && !isResolution ev && !isWrite ev) = true ∧
    ((mainRun s env).2 = .error .systemExit ∨ (mainRun s env).2 = .error e) := by
  rcases validate_survey_shape (s.schema_name ++ "." ++ s.table_name)
    env.availableSurveys env.remoteTables with hs | hs
  · simp only [mainRun, hs, hrad]
    simp [isDataQuery, isResolution, isWrite]
  · simp only [mainRun, hs]
    simp [isDataQuery, isResolution, isWrite]

/-- C2 witness: the amended statement evaluated on the radius-2.0 run. -/
theorem C2_witness :
    (mainRun radius2Settings exampleEnv).1.all
      (fun ev => !isDataQuery ev && !isResolution ev && !isWrite ev) = true ∧
    ((mainRun radius2Settings exampleEnv).2 = .error .systemExit ∨
      (mainRun radius2Settings exampleEnv).2 =
        .error (.valueError "Radius must be > 0 and <= 1.5 deg.")) :=
  C2_rejected_before_data_query radius2Settings exampleEnv
    (.valueError "Radius must be > 0 and <= 1.5 deg.") (by decide)

/-- C5: a field id absent from the field reference table fails with the
"not available" `ValueError` the spec labels `NotFoundKind`; a cluster name
absent from the combined catalogs fails with `NotImplementedError`
(`NotImplementedKind`); and an erroring run writes no output file. -/
theorem C5_absent_identifier_errors :
    (∀ (fields : List FieldRow) (n : ℤ) (radius : RadiusInput),
      n ∉ fields.map (fun r => r.fieldid) →
      get_smash_field fields (.pyInt n) radius =
        .error (.valueError ("Field " ++ intStr n ++ " not available!")) ∧
      kindOf (.valueError ("Field " ++ intStr n ++ " not available!")) =
        .notFoundKind) ∧
    (∀ (bica08 bica20 : List BicaRow) (s : String) (radius : RadiusInput),
      (∀ r ∈ bica08 ++ bica20, s ∉ splitAliases r.names) →
      get_cluster_coords bica08 bica20 (.pyStr s) radius =
        .error (.notImplementedError
          ("Cluster " ++ s ++ " not available!"
            ++ " Vizier search will be implemented.")) ∧
      kindOf (.notImplementedError
          ("Cluster " ++ s ++ " not available!"
            ++ " Vizier search will be implemented.")) = .notImplementedKind) ∧
    (∀ (s : Settings) (env : Env) (e : PyError),
      (mainRun s env).2 = .error e →
      (mainRun s env).1.all (fun ev => !isWrite ev) = true) :=
  ⟨fun fields n radius h =>
      ⟨get_smash_field_absent fields n radius h, field_msg_kind n⟩,
   fun bica08 bica20 s radius h =>
      ⟨get_cluster_coords_absent bica08 bica20 s radius h, rfl⟩,
   mainRun_error_no_write⟩

/-- C5 witness: field 999 against the one-field table, the name "Foo"
against a one-row catalog, and the radius-2.0 erroring run. -/
theorem C5_witness :
    (get_smash_field exampleEnv.fields (.pyInt 999) (.pyFloat ⟨5, 1⟩) =
        .error (.valueError ("Field " ++ intStr 999 ++ " not available!")) ∧
      kindOf (.valueError ("Field " ++ intStr 999 ++ " not available!")) =
        .notFoundKind) ∧
    (get_cluster_coords [⟨"NGC 104, 47 Tuc", ⟨60223, 4⟩, ⟨-720814, 4⟩⟩] []
        (.pyStr "Foo") (.pyFloat ⟨5, 1⟩) =
        .error (.notImplementedError
          ("Cluster " ++ "Foo" ++ " not available!"
            ++ " Vizier search will be implemented.")) ∧
      kindOf (.notImplementedError
          ("Cluster " ++ "Foo" ++ " not available!"
            ++ " Vizier search will be implemented.")) = .notImplementedKind) ∧
    (mainRun radius2Settings exampleEnv).1.all (fun ev => !isWrite ev) = true :=
  ⟨C5_absent_identifier_errors.1 exampleEnv.fields 999 (.pyFloat ⟨5, 1⟩)
      (by decide),
   C5_absent_identifier_errors.2.1 [⟨"NGC 104, 47 Tuc", ⟨60223, 4⟩, ⟨-720814, 4⟩⟩]
      [] "Foo" (.pyFloat ⟨5, 1⟩) (by decide),
   C5_absent_identifier_errors.2.2 radius2Settings exampleEnv
      (.valueError "Radius must be > 0 and <= 1.5 deg.") (by decide)⟩

/-- C6: for every numeric radius, validation succeeds exactly when
`0 < r ≤ 1.5`, any success returns the argument unchanged, any numeric
failure is the `RangeKind` `ValueError`; the boundary inputs 1.5, 0 and
1.5000001 evaluate as the spec requires. -/
theorem C6_radius_bounds :
    (∀ r : RadiusInput, r.isNumber = true →
      ((validate_radius r = .ok r ↔
          0 < r.toDec.toRat ∧ r.toDec.toRat ≤ 3 / 2) ∧
       (∀ r' : RadiusInput, validate_radius r = .ok r' → r' = r) ∧
       (¬(0 < r.toDec.toRat ∧ r.toDec.toRat ≤ 3 / 2) →
         validate_radius r =
           .error (.valueError "Radius must be > 0 and <= 1.5 deg.") ∧
         kindOf (.valueError "Radius must be > 0 and <= 1.5 deg.") =
           .rangeKind))) ∧
    validate_radius (.pyFloat ⟨15, 1⟩) = .ok (.pyFloat ⟨15, 1⟩) ∧
    validate_radius (.pyFloat ⟨0, 0⟩) =
      .error (.valueError "Radius must be > 0 and <= 1.5 deg.") ∧
    validate_radius (.pyFloat ⟨15000001, 7⟩) =
      .error (.valueError "Radius must be > 0 and <= 1.5 deg.") := by
  refine ⟨?_, by decide, by decide, by decide⟩
  intro r h
  have hcond : (r.toDec ≤ ⟨0, 0⟩ ∨ (⟨15, 1⟩ : Dec) < r.toDec) ↔
      ¬(0 < r.toDec.toRat ∧ r.toDec.toRat ≤ 3 / 2) := by
    rw [Dec.le_iff, Dec.lt_iff, toRat_zeroDec, toRat_threeHalves]
    constructor
    · rintro (h1 | h2) ⟨hp, hle⟩
      · exact absurd hp (not_lt.mpr h1)
      · exact absurd hle (not_le.mpr h2)
    · intro hn
      rcases not_and_or.mp hn with h1 | h2
      · exact Or.inl (not_lt.mp h1)
      · exact Or.inr (not_le.mp h2)
  refine ⟨⟨?_, ?_⟩, ?_, ?_⟩
  · intro hok
    by_contra hn
    simp [validate_radius, h, hcond.mpr hn] at hok
  · rintro ⟨hp, hle⟩
    have hnc : ¬(r.toDec ≤ ⟨0, 0⟩ ∨ (⟨15, 1⟩ : Dec) < r.toDec) := by
      rw [hcond]
      exact not_not_intro ⟨hp, hle⟩
    simp [validate_radius, h, hnc]
  · intro r' hok
    by_cases hc : (r.toDec ≤ ⟨0, 0⟩ ∨ (⟨15, 1⟩ : Dec) < r.toDec)
    · simp [validate_radius, h, hc] at hok
    · simp [validate_radius, h, hc] at hok
      exact hok.symm
  · intro hn
    exact ⟨by simp [validate_radius, h, hcond.mpr hn], by decide⟩

/-- C6 witness: radius 1.0 is numeric, lies in the range and is accepted. -/
theorem C6_witness :
    validate_radius (.pyFloat ⟨1, 0⟩) = .ok (.pyFloat ⟨1, 0⟩) :=
  ((C6_radius_bounds.1 (.pyFloat ⟨1, 0⟩) rfl).1).mpr
    (by norm_num [RadiusInput.toDec, Dec.toRat])

/-- C8: the end-to-end scenario (field 42, radius 0.5, `smash_dr2.object`)
writes `/out/catalogs/smash_dr2_TAP_f42_0p5deg.fits`; and in general the
field strategy derives the basename `TAP_f<id>_<radius-with-dot-as-p>deg`,
which `main` prefixes with the schema name. -/
theorem C8_output_filename :
    mainRun exampleSettings exampleEnv =
      ([.metadataQuery "smash_dr2", .fieldLookup,
        .dataQuery "smash_dr2.object" ⟨1012345, 5⟩ ⟨-6554321, 5⟩ ⟨5, 1⟩,
        .madeDir "/out/catalogs/",
        .wroteFile "/out/catalogs/smash_dr2_TAP_f42_0p5deg.fits",
        .printed "Catalog saved as \"/out/smash_dr2_TAP_f42_0p5deg.fits\""],
       .ok ⟨[⟨"ra", "deg", [⟨1, 0⟩]⟩]⟩) ∧
    (∀ (fields : List FieldRow) (n : ℤ) (radius : RadiusInput)
        (out : Dec × Dec × String × String),
      get_smash_field fields (.pyInt n) radius = .ok out →
      out.2.2.1 = "TAP_f" ++ intStr n ++ "_" ++ radiusTag radius ++ "deg") :=
  ⟨by decide, get_smash_field_fname⟩

/-- C8 witness: the general basename law evaluated at field 42, radius 0.5. -/
theorem C8_witness :
    "TAP_f42_0p5deg" =
      "TAP_f" ++ intStr 42 ++ "_" ++ radiusTag (.pyFloat ⟨5, 1⟩) ++ "deg" :=
  C8_output_filename.2 exampleEnv.fields 42 (.pyFloat ⟨5, 1⟩)
    (⟨1012345, 5⟩, ⟨-6554321, 5⟩, "TAP_f42_0p5deg",
      "Field 42 (RA 10.12345, DEC -65.54321), rad = 0.500 deg?") (by decide)

/-- C9: when the requested name sits in the alias sets of at least two rows
of the combined catalog, resolution raises numpy's size-1 `ValueError`
(from `.item()`) instead of silently picking one row. -/
theorem C9_ambiguous_name_errors (bica08 bica20 : List BicaRow) (s : String)
    (radius : RadiusInput)
    (h : 2 ≤ ((bica08 ++ bica20).filter
        (fun r => listHas (splitAliases r.names) s)).length) :
    get_cluster_coords bica08 bica20 (.pyStr s) radius =
      .error (.valueError "can only convert an array of size 1 to a Python scalar") := by
  have hg : ∀ r : BicaRow, listHas (splitAliases r.names) s =
      (splitAliases r.names).any (fun a => pyEqAlias (.pyStr s) a) := by
    intro r
    rw [Bool.eq_iff_iff]
    simp only [listHas, List.any_eq_true, pyEqAlias, decide_eq_true_eq]
    constructor
    · rintro ⟨a, ha, h2⟩
      exact ⟨a, ha, h2.symm⟩
    · rintro ⟨a, ha, h2⟩
      exact ⟨a, ha, h2.symm⟩
  have hlen : 2 ≤ ((bica08 ++ bica20).filter
      (fun r => (splitAliases r.names).any
        (fun a => pyEqAlias (.pyStr s) a))).length := by
    rwa [List.filter_congr (fun r _ => hg r)] at h
  obtain ⟨r0, hr0⟩ :=
    List.exists_mem_of_length_pos (lt_of_lt_of_le (by norm_num) hlen)
  have hr0' := List.mem_filter.mp hr0
  have hguard : (((bica08 ++ bica20).map
      (fun r => splitAliases r.names)).flatten.any
        (fun a => pyEqAlias (.pyStr s) a)) = true := by
    rcases List.any_eq_true.mp hr0'.2 with ⟨a, ha, hpa⟩
    refine List.any_eq_true.mpr ⟨a, ?_, hpa⟩
    exact List.mem_flatten.mpr ⟨splitAliases r0.names,
      List.mem_map.mpr ⟨r0, hr0'.1, rfl⟩, ha⟩
  have hsel : (((bica08 ++ bica20).zip
      (((bica08 ++ bica20).map (fun r => splitAliases r.names)).map
        (fun item => item.any (fun a => pyEqAlias (.pyStr s) a)))).filterMap
          (fun p => if p.2 then some p.1 else none)) =
      (bica08 ++ bica20).filter
        (fun r => (splitAliases r.names).any
          (fun a => pyEqAlias (.pyStr s) a)) := by
    rw [List.map_map]
    exact zip_mask_filterMap (bica08 ++ bica20) _
  rcases hshape : (bica08 ++ bica20).filter
      (fun r => (splitAliases r.names).any
        (fun a => pyEqAlias (.pyStr s) a)) with _ | ⟨x, _ | ⟨y, tl⟩⟩
  · rw [hshape] at hlen; simp at hlen
  · rw [hshape] at hlen; simp at hlen
  · simp only [get_cluster_coords]
    rw [hguard, hsel, hshape]
    rfl

/-- C9 witness: "A" appears in the alias sets of both catalog rows and the
resolution raises. -/
theorem C9_witness :
    get_cluster_coords [⟨"A", ⟨1, 0⟩, ⟨2, 0⟩⟩, ⟨"A, B", ⟨3, 0⟩, ⟨4, 0⟩⟩] []
        (.pyStr "A") (.pyFloat ⟨5, 1⟩) =
      .error (.valueError "can only convert an array of size 1 to a Python scalar") :=
  C9_ambiguous_name_errors [⟨"A", ⟨1, 0⟩, ⟨2, 0⟩⟩, ⟨"A, B", ⟨3, 0⟩, ⟨4, 0⟩⟩] []
    "A" (.pyFloat ⟨5, 1⟩) (by decide)

/-- C10: when the settings type names neither strategy and both validations
pass, dispatch raises `NotImplementedError` and the trace holds no
reference-table lookup, no data query and no file write. -/
theorem C10_unknown_type_dispatch (s : Settings) (env : Env)
    (h1 : s.qtype ≠ "SMASH field") (h2 : s.qtype ≠ "cluster")
    (hsv : (validate_survey (s.schema_name ++ "." ++ s.table_name)
      env.availableSurveys env.remoteTables).2 = .ok ())
    (rad : RadiusInput) (hr : validate_radius s.radius = .ok rad) :
    (mainRun s env).2 =
      .error (.notImplementedError "Type must be 'SMASH field' or 'cluster'.") ∧
    (mainRun s env).1.all
      (fun ev => !isResolution ev && !isDataQuery ev && !isWrite ev) = true := by
  rcases validate_survey_shape (s.schema_name ++ "." ++ s.table_name)
    env.availableSurveys env.remoteTables with hs | hs
  · simp only [mainRun, hs, hr, if_neg h1, if_neg h2]
    simp [isDataQuery, isResolution, isWrite]
  · rw [hs] at hsv
    simp at hsv

/-- C10 witness: the settings with type "coordinates" on the scenario
environment. -/
theorem C10_witness :
    (mainRun coordSettings exampleEnv).2 =
      .error (.notImplementedError "Type must be 'SMASH field' or 'cluster'.") ∧
    (mainRun coordSettings exampleEnv).1.all
      (fun ev => !isResolution ev && !isDataQuery ev && !isWrite ev) = true :=
  C10_unknown_type_dispatch coordSettings exampleEnv (by decide) (by decide)
    (by decide) (.pyFloat ⟨5, 1⟩) (by decide)

end QueryNoirlab
